import Mathlib

/-!
# Verification of the episk compositor core

Shallow embedding of the episk Wayland compositor (sources:
`src/main.rs`, `src/handlers/xdg_shell.rs`, `src/handlers/mod.rs`)
together with proofs of the specified properties of its grab
validation, move/resize request handling, commit gating, and the
frame-tick driver.

Machine integers are modelled as `Int` (logical coordinates are `i32`,
never overflowed by the modelled operations) and `Nat` (serials,
millisecond counters); the one truncating cast in the source
(`as_millis() as u32`) is modelled with an explicit `% 2^32`.
Code paths that panic (`unwrap`, `expect`) are modelled as functions
returning `Option`, with `none` meaning the process aborts.
-/

set_option autoImplicit false

namespace Episk

/-- Logical 2D point / vector, `Point<i32, Logical>` in the source. -/
abbrev Pt := Int × Int

/-- A `WlSurface` identity: the protocol object id together with the
owning client.  `id().same_client_as` compares the `client` parts. -/
structure Surface where
  client : Nat
  obj : Nat
  deriving DecidableEq, Repr

/-- `same_client_as` on surface ids (`wayland_server::backend::ObjectId`). -/
def Surface.same_client_as (a b : Surface) : Bool :=
  a.client == b.client

/-- `PointerGrabStartData`: focus at grab start (surface plus its
location, `Option<(WlSurface, Point)>`), the pressed button, and the
pointer location at grab start. -/
structure GrabStartData where
  focus : Option (Surface × Pt)
  button : Nat
  location : Pt
  deriving DecidableEq, Repr

/-- A pointer device.  `grab` mirrors smithay's
`GrabStatus::Active(Serial, grab)`: when a low-level grab is active it
holds the serial that started it and the grab's start data;
`has_grab` and `grab_start_data` both read this one status, exactly as
`PointerHandle::has_grab` / `PointerHandle::grab_start_data` do. -/
structure Pointer where
  grab : Option (Nat × GrabStartData)
  deriving DecidableEq, Repr

/-- `PointerHandle::has_grab(serial)`: an active grab exists and its
serial equals the given one. -/
def Pointer.has_grab (p : Pointer) (serial : Nat) : Bool :=
  match p.grab with
  | some (s, _) => s == serial
  | none => false

/-- `PointerHandle::grab_start_data()`: the start data of the active
grab, if any. -/
def Pointer.grab_start_data (p : Pointer) : Option GrabStartData :=
  p.grab.map (·.2)

/-- A seat; `get_pointer()` returns its pointer device, if one was
added. -/
structure Seat where
  pointer : Option Pointer
  deriving DecidableEq, Repr

/-- A toplevel `Window`: wraps one toplevel surface; `size` is
`window.geometry().size`. -/
structure Window where
  wid : Nat
  surface : Surface
  size : Pt
  deriving DecidableEq, Repr

/-- The `Space`: mapped windows, each with its placement.
`map_window` inserts at the front (most recently mapped / raised
first) and removes any previous entry for the same window. -/
structure Space where
  windows : List (Window × Pt)
  deriving DecidableEq, Repr

/-- `Space::window_for_surface(surface, WindowSurfaceType::TOPLEVEL)`:
the mapped window whose toplevel surface is `surface`. -/
def Space.window_for_surface (sp : Space) (surface : Surface) : Option Window :=
  (sp.windows.find? (fun wl => wl.1.surface == surface)).map (·.1)

/-- `Space::window_location(window)`: the placement of a mapped
window. -/
def Space.window_location (sp : Space) (w : Window) : Option Pt :=
  (sp.windows.find? (fun wl => wl.1 == w)).map (·.2)

/-- `Space::map_window(window, location, ..)`: (re-)maps the window at
the given placement. -/
def Space.map_window (sp : Space) (w : Window) (loc : Pt) : Space :=
  ⟨(w, loc) :: sp.windows.filter (fun wl => wl.1 ≠ w)⟩

/-- `check_grab` (src/handlers/xdg_shell.rs:120-137): validates a
move/resize request: the seat must have a pointer, the pointer must
have an active grab started by `serial`, the grab's start data must
record a focus, and that focus must belong to the same client as
`surface`; returns the start data on success and `None` otherwise. -/
def check_grab (seat : Seat) (surface : Surface) (serial : Nat) :
    Option GrabStartData :=
  Option.bind seat.pointer fun pointer =>
    if ¬ pointer.has_grab serial then
      none
    else
      Option.bind pointer.grab_start_data fun start_data =>
        Option.bind start_data.focus fun fl =>
          if ¬ (fl.1).same_client_as surface then
            none
          else
            some start_data

/-! ## The grabs module

`src/main.rs` declares `mod grabs;` and `src/handlers/xdg_shell.rs`
imports `crate::grabs::{MoveSurfaceGrab, ResizeSurfaceGrab}`, but
`src/grabs.rs` itself is not among the provided sources.  The grab
structures are shaped by their construction sites in
`move_request`/`resize_request`; their motion behaviour is modelled
from the spec (§4.3). -/

/-- `MoveSurfaceGrab`, as constructed in `move_request`
(src/handlers/xdg_shell.rs:62-66): the grab-start data, the target
window and its placement when the grab began. -/
structure MoveSurfaceGrab where
  start_data : GrabStartData
  window : Window
  initial_window_location : Pt
  deriving DecidableEq, Repr

/-- Modelled from the spec: `MoveSurfaceGrab`'s pointer-motion handler
(in the missing `src/grabs.rs`) — "Motion while Active(Move): new
placement = start placement + (current pointer pos − start pointer
pos); Window Space placement updated; no size change." -/
def MoveSurfaceGrab.motion (g : MoveSurfaceGrab) (sp : Space) (location : Pt) :
    Space :=
  let delta := location - g.start_data.location
  sp.map_window g.window (g.initial_window_location + delta)

/-- `xdg_toplevel::ResizeEdge` as a set of active edges (the
`edges.into()` conversion target used by `ResizeSurfaceGrab::start`). -/
structure ResizeEdge where
  left : Bool
  right : Bool
  top : Bool
  bottom : Bool
  deriving DecidableEq, Repr

/-- `Rectangle::from_loc_and_size(loc, size)`. -/
structure Rect where
  loc : Pt
  size : Pt
  deriving DecidableEq, Repr

/-- `ResizeSurfaceGrab`, as constructed by `ResizeSurfaceGrab::start`
in `resize_request` (src/handlers/xdg_shell.rs:101-106): grab-start
data, target window, active edges, and the window's geometry when the
grab began. -/
structure ResizeSurfaceGrab where
  start_data : GrabStartData
  window : Window
  edges : ResizeEdge
  initial_rect : Rect
  deriving DecidableEq, Repr

/-- `ResizeSurfaceGrab::start` (in the missing `src/grabs.rs`),
called from `resize_request`. -/
def ResizeSurfaceGrab.start (start_data : GrabStartData) (window : Window)
    (edges : ResizeEdge) (initial_rect : Rect) : ResizeSurfaceGrab :=
  ⟨start_data, window, edges, initial_rect⟩

/-- Modelled from the spec: `ResizeSurfaceGrab`'s geometry computation
on pointer motion (in the missing `src/grabs.rs`) — "new geometry
computed by applying the pointer delta only to the edges flagged
active (left/top edges move the origin and shrink/grow size inversely;
right/bottom edges grow/shrink size directly); result is NOT clamped
to a minimum size". -/
def ResizeSurfaceGrab.new_geometry (g : ResizeSurfaceGrab) (location : Pt) :
    Rect :=
  let dx := location.1 - g.start_data.location.1
  let dy := location.2 - g.start_data.location.2
  let x0 := g.initial_rect.loc.1
  let y0 := g.initial_rect.loc.2
  let w0 := g.initial_rect.size.1
  let h0 := g.initial_rect.size.2
  let xw : Int × Int :=
    if g.edges.left then (x0 + dx, w0 - dx)
    else if g.edges.right then (x0, w0 + dx)
    else (x0, w0)
  let yh : Int × Int :=
    if g.edges.top then (y0 + dy, h0 - dy)
    else if g.edges.bottom then (y0, h0 + dy)
    else (y0, h0)
  ⟨(xw.1, yh.1), (xw.2, yh.2)⟩

/-! ## Shell protocol handler: move / resize requests -/

/-- The pointer grab installed by `pointer.set_grab(..)`. -/
inductive InstalledGrab where
  | move (g : MoveSurfaceGrab)
  | resize (g : ResizeSurfaceGrab)
  deriving DecidableEq, Repr

/-- The externally visible side effects of a request handler, in the
order the source performs them. -/
inductive Action where
  /-- `surface.with_pending_state(|s| s.states.set(State::Resizing))` -/
  | set_pending_resizing (surface : Surface)
  /-- `surface.send_configure()` -/
  | send_configure (surface : Surface)
  /-- `pointer.set_grab(grab, serial, Focus::Clear)` -/
  | set_grab (serial : Nat) (grab : InstalledGrab)
  deriving DecidableEq, Repr

/-- `move_request` (src/handlers/xdg_shell.rs:41-70).  Returns the
(unchanged) Space and the ordered list of side effects; `none` models
a panic (`unwrap` failure) aborting the process.  The
`Seat::from_resource(..).unwrap()` resolution of the wire seat handle
is modelled by taking the `Seat` directly. -/
def move_request (sp : Space) (seat : Seat) (surface : Surface) (serial : Nat) :
    Option (Space × List Action) :=
  match check_grab seat surface serial with
  | none => some (sp, [])
  | some start_data =>
    Option.bind seat.pointer fun _pointer =>
      Option.bind (sp.window_for_surface surface) fun window =>
        Option.bind (sp.window_location window) fun initial_window_location =>
          some (sp,
            [Action.set_grab serial (InstalledGrab.move
              ⟨start_data, window, initial_window_location⟩)])

/-- `resize_request` (src/handlers/xdg_shell.rs:72-110): on
authorization, looks up the window and its placement (panicking if
missing), records the Resizing pending state, sends a configure, and
only then installs the resize grab. -/
def resize_request (sp : Space) (seat : Seat) (surface : Surface) (serial : Nat)
    (edges : ResizeEdge) : Option (Space × List Action) :=
  match check_grab seat surface serial with
  | none => some (sp, [])
  | some start_data =>
    Option.bind seat.pointer fun _pointer =>
      Option.bind (sp.window_for_surface surface) fun window =>
        Option.bind (sp.window_location window) fun initial_window_location =>
          let initial_window_size := window.size
          some (sp,
            [Action.set_pending_resizing surface,
             Action.send_configure surface,
             Action.set_grab serial (InstalledGrab.resize
               (ResizeSurfaceGrab.start start_data window edges
                 ⟨initial_window_location, initial_window_size⟩))])

/-! ## Commit gate -/

/-- Commit-gate state: the Space together with the set of toplevel
surfaces whose `initial_configure_sent` role flag is set.  The flag
lives in the surface's `XdgToplevelSurfaceRoleAttributes`; the
protocol layer's `send_configure` (triggered by `window.configure()`)
sets it, which is the postcondition `handle_commit` relies on. -/
structure CommitState where
  space : Space
  configure_sent : List Surface
  deriving DecidableEq, Repr

/-- `handle_commit` (src/handlers/xdg_shell.rs:140-162): on a surface
commit, look up the owning toplevel window (no window: no-op); if the
surface's initial configure has not been sent, send it now
(`window.configure()`), marking the flag.  The returned `Bool` records
whether a configure was sent by this commit. -/
def handle_commit (st : CommitState) (surface : Surface) : CommitState × Bool :=
  match st.space.window_for_surface surface with
  | none => (st, false)
  | some _window =>
    if surface ∈ st.configure_sent then
      (st, false)
    else
      ({ st with configure_sent := surface :: st.configure_sent }, true)

/-- The number of configures delivered to `target`'s toplevel over a
sequence of commits (each commit `c` triggers a configure on the
window owning `c`, i.e. on `c` itself for toplevel lookups). -/
def count_configures (st : CommitState) (cs : List Surface) (target : Surface) :
    Nat :=
  match cs with
  | [] => 0
  | c :: rest =>
    let r := handle_commit st c
    (if r.2 ∧ c = target then 1 else 0) + count_configures r.1 rest target

/-! ## Event-loop driver: frame tick -/

/-- Result of `winit.dispatch_new_events(..)` at the top of
`winit_dispatch`. -/
inductive DispatchRes where
  /-- `Ok(())` -/
  | ok
  /-- `Err(WinitError::WindowClosed)`: stop the loop, return `Ok` early -/
  | window_closed
  /-- any other `Err`: propagated by `res?` and unwrapped by the caller -/
  | dispatch_failed
  deriving DecidableEq, Repr

/-- The outcomes of the fallible external operations of one frame
tick, plus the elapsed time read from `start_time`. -/
structure TickEnv where
  dispatch : DispatchRes
  bind_ok : Bool
  render_ok : Bool
  submit_ok : Bool
  flush_ok : Bool
  elapsed_millis : Nat
  deriving DecidableEq, Repr

/-- What one completed frame tick did. -/
structure TickOutcome where
  loop_stopped : Bool
  rendered : Bool
  frames : List (Surface × Nat)
  full_redraw : Nat
  deriving DecidableEq, Repr

/-- `winit_dispatch` (src/main.rs:207-272).  `none` models an aborted
process: a panic inside (the `render_output(..).unwrap()`, the
`submit(..).unwrap()`) or a returned `Err` (from `res?` or
`flush_clients()?`), which the only caller immediately unwraps.
Note `backend.bind().ok().and_then(..)` (line 249): a failed bind is
swallowed — rendering is skipped and the tick continues to `submit`.
`full_redraw.saturating_sub(1)` is `Nat` subtraction.  `send_frames`
delivers a frame callback to every mapped window's surface with
timestamp `start_time.elapsed().as_millis() as u32`, i.e. the
millisecond count truncated to 32 bits. -/
def winit_dispatch (env : TickEnv) (sp : Space) (full_redraw : Nat) :
    Option TickOutcome :=
  match env.dispatch with
  | DispatchRes.window_closed => some ⟨true, false, [], full_redraw⟩
  | DispatchRes.dispatch_failed => none
  | DispatchRes.ok =>
    let fr := full_redraw - 1
    match (if env.bind_ok then
             (if env.render_ok then some true else none)
           else some false : Option Bool) with
    | none => none
    | some rendered =>
      if ¬ env.submit_ok then none
      else if ¬ env.flush_ok then none
      else
        some ⟨false, rendered,
          sp.windows.map (fun wl => (wl.1.surface, env.elapsed_millis % 2 ^ 32)),
          fr⟩

/-- The frame-timer callback installed by `winit_backend`
(src/main.rs:198-202): `winit_dispatch(..).unwrap()` followed by
`TimeoutAction::ToDuration(Duration::from_millis(16))`.  The result is
the re-arm delay in milliseconds; `none` means the unwrap panicked and
the process aborted before re-arming. -/
def timer_callback (env : TickEnv) (sp : Space) (full_redraw : Nat) :
    Option Nat :=
  (winit_dispatch env sp full_redraw).map (fun _ => 16)

/-- `init_wayland_listener` (src/main.rs:106-146):
`ListeningSocketSource::new_auto(log).unwrap()` — failure to bind the
listening endpoint panics (`none`); on success the socket name (a
stand-in `Nat`) is returned. -/
def init_wayland_listener (socket_bind : Except Unit Nat) : Option Nat :=
  match socket_bind with
  | Except.error _ => none
  | Except.ok name => some name

/-- The startup sequence of `main` (src/main.rs:274-292):
`State::new` binds the listening endpoint, then
`winit_backend(..).unwrap()` propagates a `winit::init` failure into
a panic.  `none` models the aborted process. -/
def main_startup (socket_bind : Except Unit Nat)
    (winit_init : Except Unit Unit) : Option Nat :=
  match init_wayland_listener socket_bind with
  | none => none
  | some name =>
    match winit_init with
    | Except.error _ => none
    | Except.ok _ => some name

/-! ## Concrete fixtures used to exercise the definitions -/

/-- A sample toplevel surface of client 1. -/
def surf0 : Surface := ⟨1, 2⟩

/-- A sample window wrapping `surf0`, geometry size 100×50. -/
def win0 : Window := ⟨0, surf0, (100, 50)⟩

/-- A space with `win0` mapped at the origin. -/
def space0 : Space := ⟨[(win0, (0, 0))]⟩

/-- Grab-start data whose focus is another surface of client 1,
button 272 (BTN_LEFT), pointer at (6, 7). -/
def sd0 : GrabStartData := ⟨some (⟨1, 3⟩, (4, 5)), 272, (6, 7)⟩

/-- A seat whose pointer holds an active grab started by serial 9. -/
def seat0 : Seat := ⟨some ⟨some (9, sd0)⟩⟩

end Episk

open Episk

/-- `has_grab serial` together with `grab_start_data = some sd`
pins down the pointer's grab status exactly. -/
theorem pointer_grab_eq_iff (p : Pointer) (serial : Nat) (sd : GrabStartData) :
    (p.has_grab serial = true ∧ p.grab_start_data = some sd) ↔
      p.grab = some (serial, sd) := by
  cases hg : p.grab with
  | none => simp [Pointer.has_grab, Pointer.grab_start_data, hg]
  | some sdp =>
    obtain ⟨s, d⟩ := sdp
    simp [Pointer.has_grab, Pointer.grab_start_data, hg, Prod.mk.injEq]

/-- C1: `check_grab(seat, surface, serial)` returns the pointer's
grab-start data `sd` iff the seat has a pointer, that pointer's active
grab was started by `serial` with start data `sd`, `sd` records a
focus target, and the focus target belongs to the same client as
`surface`; in every other case it returns `none` (which the iff over
all `sd` entails, `check_grab` being `Option`-valued). -/
theorem check_grab_iff (seat : Seat) (surface : Surface) (serial : Nat)
    (sd : GrabStartData) :
    check_grab seat surface serial = some sd ↔
      ∃ p, seat.pointer = some p ∧
        p.grab = some (serial, sd) ∧
        ∃ f loc, sd.focus = some (f, loc) ∧ f.client = surface.client := by
  constructor
  · intro h
    simp only [check_grab, Option.bind_eq_some] at h
    obtain ⟨pointer, hp, h⟩ := h
    rw [ite_eq_iff] at h
    rcases h with ⟨-, h⟩ | ⟨hg, h⟩
    · exact absurd h (by simp)
    rw [not_not] at hg
    rw [Option.bind_eq_some] at h
    obtain ⟨start_data, hsd, h⟩ := h
    rw [Option.bind_eq_some] at h
    obtain ⟨fl, hf, h⟩ := h
    obtain ⟨f, loc⟩ := fl
    rw [ite_eq_iff] at h
    rcases h with ⟨-, h⟩ | ⟨hc, h⟩
    · exact absurd h (by simp)
    rw [not_not] at hc
    rw [Option.some_inj] at h
    subst h
    exact ⟨pointer, hp, (pointer_grab_eq_iff pointer serial _).mp ⟨hg, hsd⟩,
      f, loc, hf, by simpa [Surface.same_client_as] using hc⟩
  · rintro ⟨p, hp, hgr, f, loc, hf, hc⟩
    have hhas : p.has_grab serial = true := by
      simp [Pointer.has_grab, hgr]
    have hsd : p.grab_start_data = some sd := by
      simp [Pointer.grab_start_data, hgr]
    simp [check_grab, hp, hhas, hsd, hf, Surface.same_client_as, hc]

/-- A surface wrapped by some mapped window is found by
`window_for_surface`. -/
theorem window_for_surface_of_mem (sp : Space) (surface : Surface)
    (h : ∃ wl ∈ sp.windows, wl.1.surface = surface) :
    ∃ w, sp.window_for_surface surface = some w := by
  obtain ⟨wl, hmem, hs⟩ := h
  have hsome : (sp.windows.find? (fun wl => wl.1.surface == surface)).isSome := by
    rw [List.find?_isSome]
    exact ⟨wl, hmem, by simp [hs]⟩
  obtain ⟨wl', hfind⟩ := Option.isSome_iff_exists.mp hsome
  exact ⟨wl'.1, by simp [Space.window_for_surface, hfind]⟩

/-- A window found by `window_for_surface` has a placement. -/
theorem window_location_of_found (sp : Space) (surface : Surface) (w : Window)
    (h : sp.window_for_surface surface = some w) :
    ∃ l, sp.window_location w = some l := by
  unfold Space.window_for_surface at h
  cases hfind : sp.windows.find? (fun wl => wl.1.surface == surface) with
  | none => rw [hfind] at h; simp at h
  | some wl =>
    rw [hfind] at h
    simp only [Option.map_some', Option.some_inj] at h
    have hmem : wl ∈ sp.windows := List.mem_of_find?_eq_some hfind
    have hsome : (sp.windows.find? (fun x => x.1 == w)).isSome := by
      rw [List.find?_isSome]
      exact ⟨wl, hmem, by simp [h]⟩
    obtain ⟨wl', hfind'⟩ := Option.isSome_iff_exists.mp hsome
    exact ⟨wl'.2, by simp [Space.window_location, hfind']⟩

/-- C2: for any serial the Serial Validator does not authorize,
`move_request` and `resize_request` are complete no-ops: they return
normally (no panic, hence no error surfaced), the Space is unchanged,
and no side effect at all — no grab installed, no configure, no
Resizing state — is performed (the action list is empty). -/
theorem unauthorized_request_noop (sp : Space) (seat : Seat) (surface : Surface)
    (serial : Nat) (edges : ResizeEdge)
    (h : check_grab seat surface serial = none) :
    move_request sp seat surface serial = some (sp, []) ∧
      resize_request sp seat surface serial edges = some (sp, []) := by
  constructor
  · simp [move_request, h]
  · simp [resize_request, h]

/-- C2 witness: a seat with no pointer at serial 5. -/
theorem unauthorized_request_noop_witness :
    check_grab ⟨none⟩ surf0 5 = none ∧
      (move_request space0 ⟨none⟩ surf0 5 = some (space0, []) ∧
        resize_request space0 ⟨none⟩ surf0 5 ⟨false, true, false, true⟩ =
          some (space0, [])) :=
  ⟨rfl, unauthorized_request_noop space0 ⟨none⟩ surf0 5
    ⟨false, true, false, true⟩ rfl⟩

/-- C8: when `check_grab` authorizes the request and the surface is
wrapped by a window mapped in the Space, both `move_request` and
`resize_request` complete without panicking: the `unwrap`s on
`get_pointer`, `window_for_surface` and `window_location` are all
reached with `Some` values, so their process-aborting branches are
unreachable. -/
theorem validated_lookups_succeed (sp : Space) (seat : Seat) (surface : Surface)
    (serial : Nat) (edges : ResizeEdge) (sd : GrabStartData)
    (hauth : check_grab seat surface serial = some sd)
    (hmapped : ∃ wl ∈ sp.windows, wl.1.surface = surface) :
    (move_request sp seat surface serial).isSome ∧
      (resize_request sp seat surface serial edges).isSome := by
  obtain ⟨p, hp, -⟩ := (check_grab_iff seat surface serial sd).mp hauth
  obtain ⟨w, hw⟩ := window_for_surface_of_mem sp surface hmapped
  obtain ⟨l, hl⟩ := window_location_of_found sp surface w hw
  constructor
  · simp [move_request, hauth, hp, hw, hl]
  · simp [resize_request, hauth, hp, hw, hl]

/-- C8 witness: the fixture seat's grab (serial 9) focused on a
client-1 surface, requesting for the client-1 surface `surf0` mapped
in `space0`. -/
theorem validated_lookups_succeed_witness :
    (move_request space0 seat0 surf0 9).isSome ∧
      (resize_request space0 seat0 surf0 9 ⟨false, true, false, true⟩).isSome :=
  validated_lookups_succeed space0 seat0 surf0 9 ⟨false, true, false, true⟩ sd0
    (by decide) (by decide)

/-- C6: whenever `resize_request` is authorized by the Serial
Validator (and the validated surface is mapped, so the lookups do not
abort), its effect trace is exactly: set the pending Resizing state,
send a configure to the target surface, and only then install the
resize grab — the configure strictly precedes the grab installation. -/
theorem resize_request_configures_before_grab (sp : Space) (seat : Seat)
    (surface : Surface) (serial : Nat) (edges : ResizeEdge) (sd : GrabStartData)
    (hauth : check_grab seat surface serial = some sd)
    (hmapped : ∃ wl ∈ sp.windows, wl.1.surface = surface) :
    ∃ w l,
      sp.window_for_surface surface = some w ∧
      sp.window_location w = some l ∧
      resize_request sp seat surface serial edges =
        some (sp,
          [Action.set_pending_resizing surface,
           Action.send_configure surface,
           Action.set_grab serial (InstalledGrab.resize
             (ResizeSurfaceGrab.start sd w edges ⟨l, w.size⟩))]) := by
  obtain ⟨p, hp, -⟩ := (check_grab_iff seat surface serial sd).mp hauth
  obtain ⟨w, hw⟩ := window_for_surface_of_mem sp surface hmapped
  obtain ⟨l, hl⟩ := window_location_of_found sp surface w hw
  exact ⟨w, l, hw, hl, by simp [resize_request, hauth, hp, hw, hl,
    ResizeSurfaceGrab.start]⟩

/-- C6 witness: the fixture request at serial 9 with bottom-right
edges. -/
theorem resize_request_configures_before_grab_witness :
    ∃ w l,
      space0.window_for_surface surf0 = some w ∧
      space0.window_location w = some l ∧
      resize_request space0 seat0 surf0 9 ⟨false, true, false, true⟩ =
        some (space0,
          [Action.set_pending_resizing surf0,
           Action.send_configure surf0,
           Action.set_grab 9 (InstalledGrab.resize
             (ResizeSurfaceGrab.start sd0 w ⟨false, true, false, true⟩
               ⟨l, w.size⟩))]) :=
  resize_request_configures_before_grab space0 seat0 surf0 9
    ⟨false, true, false, true⟩ sd0 (by decide) (by decide)

/-- C3: for a Move grab started at pointer position
`g.start_data.location` (P0) with initial placement
`g.initial_window_location` (L0), after any sequence of motion events
ending at `p1` the window's placement in the Space is
`L0 + (p1 − P0)`; the Space still maps the very same window (hence
its size is unchanged); and a sequence ending back at P0 leaves the
placement exactly L0. -/
theorem move_grab_motion_spec (g : MoveSurfaceGrab) (sp : Space) (ps : List Pt)
    (p1 : Pt) :
    ((ps ++ [p1]).foldl g.motion sp).window_location g.window =
        some (g.initial_window_location + (p1 - g.start_data.location)) ∧
    ((ps ++ [p1]).foldl g.motion sp).window_for_surface g.window.surface =
        some g.window ∧
    ((ps ++ [g.start_data.location]).foldl g.motion sp).window_location g.window =
        some g.initial_window_location := by
  have hloc : ∀ (s : Space) (q : Pt),
      (g.motion s q).window_location g.window =
        some (g.initial_window_location + (q - g.start_data.location)) := by
    intro s q
    simp [MoveSurfaceGrab.motion, Space.map_window, Space.window_location]
  have hsurf : ∀ (s : Space) (q : Pt),
      (g.motion s q).window_for_surface g.window.surface = some g.window := by
    intro s q
    simp [MoveSurfaceGrab.motion, Space.map_window, Space.window_for_surface]
  refine ⟨?_, ?_, ?_⟩
  · rw [List.foldl_append, List.foldl_cons, List.foldl_nil]
    exact hloc _ _
  · rw [List.foldl_append, List.foldl_cons, List.foldl_nil]
    exact hsurf _ _
  · rw [List.foldl_append, List.foldl_cons, List.foldl_nil]
    rw [hloc]
    simp

/-- C4: a Resize grab with active edges {right, bottom} maps the
geometry (x0, y0, w0, h0) under a pointer delta (dx, dy) to
(x0, y0, w0+dx, h0+dy); with active edges {left, top} it maps it to
(x0+dx, y0+dy, w0−dx, h0−dy).  Both equalities hold for every delta —
in particular for deltas making the size zero or negative, i.e. the
result is not clamped to any minimum size. -/
theorem resize_grab_geometry_spec (sd : GrabStartData) (w : Window) (r : Rect)
    (loc : Pt) :
    (ResizeSurfaceGrab.start sd w ⟨false, true, false, true⟩ r).new_geometry loc =
      ⟨(r.loc.1, r.loc.2),
       (r.size.1 + (loc.1 - sd.location.1), r.size.2 + (loc.2 - sd.location.2))⟩ ∧
    (ResizeSurfaceGrab.start sd w ⟨true, false, true, false⟩ r).new_geometry loc =
      ⟨(r.loc.1 + (loc.1 - sd.location.1), r.loc.2 + (loc.2 - sd.location.2)),
       (r.size.1 - (loc.1 - sd.location.1), r.size.2 - (loc.2 - sd.location.2))⟩ :=
  ⟨rfl, rfl⟩

/-- `handle_commit` never mutates the Space. -/
theorem handle_commit_space (st : CommitState) (c : Surface) :
    (handle_commit st c).1.space = st.space := by
  unfold handle_commit
  split
  · rfl
  · split <;> rfl

/-- A commit of a surface whose window lookup fails is a no-op. -/
theorem handle_commit_noop_of_unmapped (st : CommitState) (s : Surface)
    (h : st.space.window_for_surface s = none) :
    handle_commit st s = (st, false) := by
  unfold handle_commit
  rw [h]

/-- A commit of a mapped surface whose initial configure is still
unsent sends it and marks the flag. -/
theorem handle_commit_eq_of (st : CommitState) (c : Surface) (w : Window)
    (hw : st.space.window_for_surface c = some w)
    (hc : c ∉ st.configure_sent) :
    handle_commit st c =
      ({ st with configure_sent := c :: st.configure_sent }, true) := by
  unfold handle_commit
  rw [hw]
  simp [hc]

/-- The configure-sent flag, once set, survives any commit. -/
theorem mem_sent_handle_commit (st : CommitState) (c t : Surface)
    (h : t ∈ st.configure_sent) :
    t ∈ (handle_commit st c).1.configure_sent := by
  unfold handle_commit
  split
  · exact h
  · split
    · exact h
    · exact List.mem_cons_of_mem _ h

/-- The flag of `t` is not set by a commit of a different surface. -/
theorem not_mem_sent_handle_commit (st : CommitState) (c t : Surface)
    (h : t ∉ st.configure_sent) (hne : t ≠ c) :
    t ∉ (handle_commit st c).1.configure_sent := by
  unfold handle_commit
  split
  · exact h
  · split
    · exact h
    · intro hmem
      rcases List.mem_cons.mp hmem with h1 | h1
      · exact hne h1
      · exact h h1

/-- A surface whose flag is already set never receives another
implicit configure, over any sequence of commits. -/
theorem count_configures_of_sent (t : Surface) (cs : List Surface) :
    ∀ st : CommitState, t ∈ st.configure_sent →
      count_configures st cs t = 0 := by
  induction cs with
  | nil => intro st _; rfl
  | cons c rest ih =>
    intro st h
    rw [count_configures]
    have hgrow := mem_sent_handle_commit st c t h
    have hzero : (if (handle_commit st c).2 ∧ c = t then 1 else 0) = 0 := by
      by_cases hct : c = t
      · subst hct
        have hsnd : (handle_commit st c).2 = false := by
          unfold handle_commit
          split
          · rfl
          · simp [h]
        simp [hsnd]
      · simp [hct]
    rw [hzero, ih _ hgrow]

/-- Over any commit sequence, a mapped toplevel whose initial
configure is unsent receives exactly one implicit configure if the
sequence commits it, and none otherwise. -/
theorem count_configures_eq (t : Surface) (cs : List Surface) :
    ∀ st : CommitState, (∃ wl ∈ st.space.windows, wl.1.surface = t) →
      t ∉ st.configure_sent →
      count_configures st cs t = (if t ∈ cs then 1 else 0) := by
  induction cs with
  | nil => intro st _ _; simp [count_configures]
  | cons c rest ih =>
    intro st hmapped hflag
    by_cases hct : c = t
    · subst hct
      obtain ⟨w, hw⟩ := window_for_surface_of_mem st.space c hmapped
      rw [count_configures, handle_commit_eq_of st c w hw hflag]
      have h0 := count_configures_of_sent c rest
        { st with configure_sent := c :: st.configure_sent }
        (List.mem_cons_self c _)
      simp [h0]
    · have htc : ¬ t = c := fun h => hct h.symm
      rw [count_configures]
      have hflag' := not_mem_sent_handle_commit st c t hflag htc
      have hmapped' : ∃ wl ∈ (handle_commit st c).1.space.windows,
          wl.1.surface = t := by
        rw [handle_commit_space]
        exact hmapped
      rw [ih _ hmapped' hflag']
      have hno : ¬((handle_commit st c).2 = true ∧ c = t) := fun h => hct h.2
      rw [if_neg hno]
      simp [List.mem_cons, htc]

/-- C5: the Commit Gate sends exactly one implicit configure per
toplevel.  For a toplevel `t` mapped in the Space whose
`initial_configure_sent` flag is unset: over any commit sequence, `t`
receives one implicit configure if the sequence contains a commit of
`t` (the first one triggers it) and none if it is never committed;
and a commit of any surface with no owning toplevel window is a
complete no-op. -/
theorem commit_gate_first_configure (st : CommitState) (cs : List Surface)
    (t : Surface)
    (hmapped : ∃ wl ∈ st.space.windows, wl.1.surface = t)
    (hflag : t ∉ st.configure_sent) :
    count_configures st cs t = (if t ∈ cs then 1 else 0) ∧
      ∀ s, st.space.window_for_surface s = none →
        handle_commit st s = (st, false) :=
  ⟨count_configures_eq t cs st hmapped hflag,
   fun s h => handle_commit_noop_of_unmapped st s h⟩

/-- C5 witness: `surf0` mapped with flag unset; two commits of
`surf0` yield exactly one configure, and a commit of an unmapped
surface is a no-op. -/
theorem commit_gate_first_configure_witness :
    count_configures ⟨space0, []⟩ [surf0, surf0] surf0 = 1 ∧
      handle_commit ⟨space0, []⟩ ⟨7, 7⟩ = (⟨space0, []⟩, false) := by
  have h := commit_gate_first_configure ⟨space0, []⟩ [surf0, surf0] surf0
    (by decide) (by decide)
  exact ⟨by simpa using h.1, h.2 ⟨7, 7⟩ (by decide)⟩

/-- C7 counterexample: a tick in which binding the render target
fails but submission succeeds does NOT abort the process — the
`backend.bind().ok().and_then(..)` at src/main.rs:249 swallows the
bind error, rendering is skipped (`rendered = false`), and the tick
completes, returning `Ok`.  The claim asserts such a tick aborts. -/
theorem bind_failure_does_not_abort :
    winit_dispatch ⟨DispatchRes.ok, false, true, true, true, 0⟩ space0 3 =
      some ⟨false, false, [(surf0, 0)], 2⟩ := by decide

/-- C7 (amended): failure to bind the listening endpoint aborts
startup; failure of `winit::init` aborts startup; within a tick, a
render failure after a successful bind aborts, and a submit failure
aborts; but a failed bind of the render target alone does not abort —
compositing is skipped and the tick proceeds. -/
theorem hard_fail_policy (sock : Except Unit Nat) (env : TickEnv)
    (sp : Space) (fr : Nat) :
    (init_wayland_listener (Except.error ()) = none) ∧
    (main_startup sock (Except.error ()) = none) ∧
    (env.dispatch = DispatchRes.ok → env.bind_ok = true →
      env.render_ok = false → winit_dispatch env sp fr = none) ∧
    (env.dispatch = DispatchRes.ok → env.submit_ok = false →
      winit_dispatch env sp fr = none) ∧
    (env.dispatch = DispatchRes.ok → env.bind_ok = false →
      env.submit_ok = true → env.flush_ok = true →
      winit_dispatch env sp fr =
        some ⟨false, false,
          sp.windows.map (fun wl => (wl.1.surface, env.elapsed_millis % 2 ^ 32)),
          fr - 1⟩) := by
  refine ⟨rfl, ?_, ?_, ?_, ?_⟩
  · unfold main_startup init_wayland_listener
    cases sock <;> rfl
  · intro hd hb hr
    simp [winit_dispatch, hd, hb, hr]
  · intro hd hs
    cases hb : env.bind_ok <;> cases hr : env.render_ok <;>
      simp [winit_dispatch, hd, hs, hb, hr]
  · intro hd hb hs hf
    simp [winit_dispatch, hd, hb, hs, hf]

/-- C7 amended-claim witness: render failure aborts; submit failure
aborts. -/
theorem hard_fail_policy_witness :
    winit_dispatch ⟨DispatchRes.ok, true, false, true, true, 7⟩ space0 0 = none ∧
      winit_dispatch ⟨DispatchRes.ok, true, true, false, true, 7⟩ space0 0 = none :=
  ⟨(hard_fail_policy (Except.ok 0) ⟨DispatchRes.ok, true, false, true, true, 7⟩
      space0 0).2.2.1 rfl rfl rfl,
   (hard_fail_policy (Except.ok 0) ⟨DispatchRes.ok, true, true, false, true, 7⟩
      space0 0).2.2.2.1 rfl rfl⟩

/-- C9 counterexample: a firing of the frame-timer callback whose
compositing fails (here: submit fails) does not re-arm the timer —
`winit_dispatch(..).unwrap()` panics before the callback can return
`TimeoutAction::ToDuration(16 ms)`, so the process aborts instead.
The claim asserts every firing re-arms regardless of failure. -/
theorem failed_tick_does_not_rearm :
    timer_callback ⟨DispatchRes.ok, true, true, false, true, 0⟩ space0 0 =
      none := by decide

/-- C9 (amended): every firing of the frame-timer callback whose tick
completes re-arms the timer for exactly 16 ms later, whatever the
tick did (rendered or skipped rendering, loop stopped or not); a
firing whose tick fails aborts the process and never re-arms. -/
theorem timer_rearms_16ms (env : TickEnv) (sp : Space) (fr : Nat)
    (o : TickOutcome) (h : winit_dispatch env sp fr = some o) :
    timer_callback env sp fr = some 16 := by
  simp [timer_callback, h]

/-- C9 amended-claim witness: a fully successful tick re-arms 16 ms
out. -/
theorem timer_rearms_16ms_witness :
    timer_callback ⟨DispatchRes.ok, true, true, true, true, 7⟩ space0 0 =
      some 16 :=
  timer_rearms_16ms ⟨DispatchRes.ok, true, true, true, true, 7⟩ space0 0
    ⟨false, true, [(surf0, 7)], 0⟩ (by decide)

/-- C10: every completed frame tick (one that is not the early-return
window-closed path) sends frame callbacks to all surfaces in the
Space, each timestamped with the milliseconds elapsed since process
start reduced modulo 2^32 — the truncation of `as_millis() as u32`,
which therefore wraps once the elapsed count reaches 2^32 ms. -/
theorem frames_sent_with_wrapped_timestamp (env : TickEnv) (sp : Space)
    (fr : Nat) (o : TickOutcome) (hd : env.dispatch = DispatchRes.ok)
    (h : winit_dispatch env sp fr = some o) :
    o.frames =
        sp.windows.map (fun wl => (wl.1.surface, env.elapsed_millis % 2 ^ 32)) ∧
      env.elapsed_millis % 2 ^ 32 < 2 ^ 32 := by
  refine ⟨?_, Nat.mod_lt _ (by norm_num)⟩
  cases hb : env.bind_ok <;> cases hr : env.render_ok <;>
    cases hs : env.submit_ok <;> cases hf : env.flush_ok <;>
    simp [winit_dispatch, hd, hb, hr, hs, hf] at h <;>
    simp [← h]

/-- C10 witness: a successful tick at 7 ms with `space0`. -/
theorem frames_sent_with_wrapped_timestamp_witness :
    winit_dispatch ⟨DispatchRes.ok, true, true, true, true, 7⟩ space0 0 =
        some ⟨false, true, [(surf0, 7)], 0⟩ ∧
      ([(surf0, 7)] : List (Surface × Nat)) =
          space0.windows.map (fun wl => (wl.1.surface, 7 % 2 ^ 32)) ∧
        7 % 2 ^ 32 < 2 ^ 32 :=
  ⟨by decide,
   frames_sent_with_wrapped_timestamp ⟨DispatchRes.ok, true, true, true, true, 7⟩
     space0 0 ⟨false, true, [(surf0, 7)], 0⟩ rfl (by decide)⟩
